import Mathlib

/-!
Shallow embedding of `src/appleseed/foundation/math/filter.h` (appleseed,
foundation math library): the 2D reconstruction filter hierarchy
(`Filter2`, `BoxFilter2`, `TriangleFilter2`, `GaussianFilter2`,
`MitchellFilter2`, `LanczosFilter2`) and the generic
`compute_normalization_factor` utility.  The C++ scalar type `T` is
modelled as `ℝ`; `std::exp`, `std::sin`, `std::abs` and the constant `Pi`
become `Real.exp`, `Real.sin`, `abs` and `Real.pi`.  Each C++ class becomes
a structure holding exactly the data members of the class, together with a
`make` function mirroring the constructor, and an `evaluate` function
mirroring the member function body line by line.
-/

namespace Appleseed

/-- Data members of the base class `Filter2<T>` (filter.h lines 67-72). -/
structure Filter2 where
  m_xradius : ℝ
  m_yradius : ℝ
  m_rcp_xradius : ℝ
  m_rcp_yradius : ℝ

/-- Constructor `Filter2<T>::Filter2(xradius, yradius)` (filter.h lines 197-204):
stores both radii and their reciprocals `T(1.0) / radius`. -/
noncomputable def mkFilter2 (xradius yradius : ℝ) : Filter2 :=
  { m_xradius := xradius
    m_yradius := yradius
    m_rcp_xradius := 1 / xradius
    m_rcp_yradius := 1 / yradius }

/-- `Filter2<T>::get_xradius()` (filter.h lines 206-210). -/
def Filter2.get_xradius (f : Filter2) : ℝ :=
  f.m_xradius

/-- `Filter2<T>::get_yradius()` (filter.h lines 212-216). -/
def Filter2.get_yradius (f : Filter2) : ℝ :=
  f.m_yradius

/-- `BoxFilter2<T>` (filter.h lines 79-87): no data members beyond the base. -/
structure BoxFilter2 where
  base : Filter2

/-- Constructor `BoxFilter2<T>::BoxFilter2` (filter.h lines 223-227). -/
noncomputable def BoxFilter2.make (xradius yradius : ℝ) : BoxFilter2 :=
  { base := mkFilter2 xradius yradius }

/-- `BoxFilter2<T>::evaluate` (filter.h lines 229-233): returns `T(1.0)`. -/
def BoxFilter2.evaluate (_f : BoxFilter2) (_x _y : ℝ) : ℝ :=
  1

/-- `TriangleFilter2<T>` (filter.h lines 94-102): no extra data members. -/
structure TriangleFilter2 where
  base : Filter2

/-- Constructor `TriangleFilter2<T>::TriangleFilter2` (filter.h lines 240-244). -/
noncomputable def TriangleFilter2.make (xradius yradius : ℝ) : TriangleFilter2 :=
  { base := mkFilter2 xradius yradius }

/-- `TriangleFilter2<T>::evaluate` (filter.h lines 246-252). -/
noncomputable def TriangleFilter2.evaluate (f : TriangleFilter2) (x y : ℝ) : ℝ :=
  let nx := x * f.base.m_rcp_xradius
  let ny := y * f.base.m_rcp_yradius
  (1 - |nx|) * (1 - |ny|)

/-- `GaussianFilter2<T>` data members (filter.h lines 121-123). -/
structure GaussianFilter2 where
  base : Filter2
  m_alpha : ℝ
  m_shift : ℝ

/-- Static helper `GaussianFilter2<T>::gaussian(x, alpha)` (filter.h
lines 280-284): `std::exp(-alpha * x * x)`. -/
noncomputable def GaussianFilter2.gaussian (x alpha : ℝ) : ℝ :=
  Real.exp (-alpha * x * x)

/-- Constructor `GaussianFilter2<T>::GaussianFilter2` (filter.h lines 259-268):
stores `alpha` and `m_shift = gaussian(T(1.0), alpha)`. -/
noncomputable def GaussianFilter2.make (xradius yradius alpha : ℝ) : GaussianFilter2 :=
  { base := mkFilter2 xradius yradius
    m_alpha := alpha
    m_shift := GaussianFilter2.gaussian 1 alpha }

/-- `GaussianFilter2<T>::evaluate` (filter.h lines 270-278). -/
noncomputable def GaussianFilter2.evaluate (f : GaussianFilter2) (x y : ℝ) : ℝ :=
  let nx := x * f.base.m_rcp_xradius
  let ny := y * f.base.m_rcp_yradius
  let fx := GaussianFilter2.gaussian nx f.m_alpha - f.m_shift
  let fy := GaussianFilter2.gaussian ny f.m_alpha - f.m_shift
  fx * fy

/-- `MitchellFilter2<T>` data members (filter.h lines 150-152). -/
structure MitchellFilter2 where
  base : Filter2
  m_a3 : ℝ
  m_a2 : ℝ
  m_a0 : ℝ
  m_b3 : ℝ
  m_b2 : ℝ
  m_b1 : ℝ
  m_b0 : ℝ

/-- Constructor `MitchellFilter2<T>::MitchellFilter2` (filter.h lines 291-307):
derives the eight cubic coefficients from `b` and `c`. -/
noncomputable def MitchellFilter2.make (xradius yradius b c : ℝ) : MitchellFilter2 :=
  { base := mkFilter2 xradius yradius
    m_a3 := (1 / 6) * (12 - 9 * b - 6 * c)
    m_a2 := (1 / 6) * (-18 + 12 * b + 6 * c)
    m_a0 := (1 / 6) * (6 - 2 * b)
    m_b3 := (1 / 6) * (-b - 6 * c)
    m_b2 := (1 / 6) * (6 * b + 30 * c)
    m_b1 := (1 / 6) * (-12 * b - 48 * c)
    m_b0 := (1 / 6) * (8 * b + 24 * c) }

/-- `MitchellFilter2<T>::evaluate` (filter.h lines 309-333). -/
noncomputable def MitchellFilter2.evaluate (f : MitchellFilter2) (x y : ℝ) : ℝ :=
  let nx := x * f.base.m_rcp_xradius
  let x1 := |nx + nx|
  let x2 := x1 * x1
  let x3 := x2 * x1
  let fx :=
    if x1 < 1 then f.m_a3 * x3 + f.m_a2 * x2 + f.m_a0
    else f.m_b3 * x3 + f.m_b2 * x2 + f.m_b1 * x1 + f.m_b0
  let ny := y * f.base.m_rcp_yradius
  let y1 := |ny + ny|
  let y2 := y1 * y1
  let y3 := y2 * y1
  let fy :=
    if y1 < 1 then f.m_a3 * y3 + f.m_a2 * y2 + f.m_a0
    else f.m_b3 * y3 + f.m_b2 * y2 + f.m_b1 * y1 + f.m_b0
  fx * fy

/-- Static helper `MitchellFilter2<T>::mitchell(x, b, c)` (filter.h
lines 335-355). -/
noncomputable def MitchellFilter2.mitchell (x b c : ℝ) : ℝ :=
  let x1 := |x + x|
  let x2 := x1 * x1
  let x3 := x2 * x1
  if x1 < 1 then
    (1 / 6) * ((12 - 9 * b - 6 * c) * x3 + (-18 + 12 * b + 6 * c) * x2 + (6 - 2 * b))
  else
    (1 / 6) * ((-b - 6 * c) * x3 + (6 * b + 30 * c) * x2 +
               (-12 * b - 48 * c) * x1 + (8 * b + 24 * c))

/-- `LanczosFilter2<T>` data members (filter.h lines 174-175). -/
structure LanczosFilter2 where
  base : Filter2
  m_rcp_tau : ℝ

/-- Constructor `LanczosFilter2<T>::LanczosFilter2` (filter.h lines 362-370).
NOTE: the source initializer list reads `m_rcp_tau(tau)` (line 368) — the
member named for the reciprocal of `tau` is initialized with `tau` itself,
not with `T(1.0) / tau`.  The embedding reproduces the source exactly. -/
noncomputable def LanczosFilter2.make (xradius yradius tau : ℝ) : LanczosFilter2 :=
  { base := mkFilter2 xradius yradius
    m_rcp_tau := tau }

/-- Static helper `LanczosFilter2<T>::sinc(x)` (filter.h lines 387-391):
`std::sin(x) / x` (no guard; in `ℝ` division by zero yields zero). -/
noncomputable def LanczosFilter2.sinc (x : ℝ) : ℝ :=
  Real.sin x / x

/-- Static helper `LanczosFilter2<T>::lanczos(x, rcp_tau)` (filter.h
lines 380-385): `theta = Pi * x`; returns `1` when `theta == 0`, else
`sinc(theta * rcp_tau) * sinc(theta)`. -/
noncomputable def LanczosFilter2.lanczos (x rcp_tau : ℝ) : ℝ :=
  let theta := Real.pi * x
  if theta = 0 then 1 else LanczosFilter2.sinc (theta * rcp_tau) * LanczosFilter2.sinc theta

/-- `LanczosFilter2<T>::evaluate` (filter.h lines 372-378). -/
noncomputable def LanczosFilter2.evaluate (f : LanczosFilter2) (x y : ℝ) : ℝ :=
  let nx := x * f.base.m_rcp_xradius
  let ny := y * f.base.m_rcp_yradius
  LanczosFilter2.lanczos nx f.m_rcp_tau * LanczosFilter2.lanczos ny f.m_rcp_tau

/-- The accumulation loop of `compute_normalization_factor` (filter.h
lines 410-422): sum of `evaluate(p.x, p.y)` over sample indices
`0 .. sample_count-1`, where `p = (xradius*(2*s.x-1), yradius*(2*s.y-1))`
and `s = hammersley_sequence(Bases, i, sample_count)`.  The low-discrepancy
generator `hammersley_sequence` lives in `qmc.h`, outside this unit; it is
taken as a parameter `seq : index -> total count -> point in the unit
square`, deterministic by construction. -/
noncomputable def normalization_loop_sum
    (xradius yradius : ℝ) (evaluate : ℝ → ℝ → ℝ)
    (seq : ℕ → ℕ → ℝ × ℝ) (sample_count : ℕ) : ℝ :=
  ∑ i ∈ Finset.range sample_count,
    evaluate (xradius * (2 * (seq i sample_count).1 - 1))
             (yradius * (2 * (seq i sample_count).2 - 1))

/-- `compute_normalization_factor(filter, sample_count)` (filter.h
lines 398-428): accumulate the loop sum, multiply by `4*xradius*yradius`,
then divide by `sample_count` (unguarded in the source). -/
noncomputable def compute_normalization_factor
    (xradius yradius : ℝ) (evaluate : ℝ → ℝ → ℝ)
    (seq : ℕ → ℕ → ℝ × ℝ) (sample_count : ℕ) : ℝ :=
  normalization_loop_sum xradius yradius evaluate seq sample_count
    * (4 * xradius * yradius) / (sample_count : ℝ)

/-- Helper: `sinc` is an even function. -/
lemma sinc_neg (x : ℝ) : LanczosFilter2.sinc (-x) = LanczosFilter2.sinc x := by
  simp [LanczosFilter2.sinc, neg_div_neg_eq]

/-- Helper: `lanczos` is an even function of its first argument. -/
lemma lanczos_neg (x rcp_tau : ℝ) :
    LanczosFilter2.lanczos (-x) rcp_tau = LanczosFilter2.lanczos x rcp_tau := by
  simp only [LanczosFilter2.lanczos, mul_neg, neg_eq_zero]
  split_ifs with h
  · rfl
  · rw [neg_mul (Real.pi * x) rcp_tau, sinc_neg, sinc_neg]

/-- Claim C9: for every kernel variant (Box, Triangle, Gaussian,
Mitchell-Netravali, Lanczos) and every positive radii, `get_xradius` and
`get_yradius` return exactly the `xradius` and `yradius` values passed at
construction, unchanged. -/
theorem claim9_radii_accessors (xr yr alpha b c tau : ℝ) (_hx : 0 < xr) (_hy : 0 < yr) :
    (BoxFilter2.make xr yr).base.get_xradius = xr ∧
    (BoxFilter2.make xr yr).base.get_yradius = yr ∧
    (TriangleFilter2.make xr yr).base.get_xradius = xr ∧
    (TriangleFilter2.make xr yr).base.get_yradius = yr ∧
    (GaussianFilter2.make xr yr alpha).base.get_xradius = xr ∧
    (GaussianFilter2.make xr yr alpha).base.get_yradius = yr ∧
    (MitchellFilter2.make xr yr b c).base.get_xradius = xr ∧
    (MitchellFilter2.make xr yr b c).base.get_yradius = yr ∧
    (LanczosFilter2.make xr yr tau).base.get_xradius = xr ∧
    (LanczosFilter2.make xr yr tau).base.get_yradius = yr :=
  ⟨rfl, rfl, rfl, rfl, rfl, rfl, rfl, rfl, rfl, rfl⟩

/-- Witness for C9 at radii `(2, 3)` and shape parameters `alpha = 1`,
`b = c = 1/3`, `tau = 3`. -/
theorem claim9_radii_accessors_witness :
    (BoxFilter2.make 2 3).base.get_xradius = 2 ∧
    (BoxFilter2.make 2 3).base.get_yradius = 3 ∧
    (TriangleFilter2.make 2 3).base.get_xradius = 2 ∧
    (TriangleFilter2.make 2 3).base.get_yradius = 3 ∧
    (GaussianFilter2.make 2 3 1).base.get_xradius = 2 ∧
    (GaussianFilter2.make 2 3 1).base.get_yradius = 3 ∧
    (MitchellFilter2.make 2 3 (1 / 3) (1 / 3)).base.get_xradius = 2 ∧
    (MitchellFilter2.make 2 3 (1 / 3) (1 / 3)).base.get_yradius = 3 ∧
    (LanczosFilter2.make 2 3 3).base.get_xradius = 2 ∧
    (LanczosFilter2.make 2 3 3).base.get_yradius = 3 :=
  claim9_radii_accessors 2 3 1 (1 / 3) (1 / 3) 3 (by norm_num) (by norm_num)

/-- Claim C3: for every `b` and `c`, the Mitchell-Netravali inner-branch
cubic `a3*u^3 + a2*u^2 + a0` at the breakpoint `u = 1` equals the
outer-branch cubic `b3*u^3 + b2*u^2 + b1*u + b0` there, and both equal
`b/6` (continuity at the breakpoint). -/
theorem claim3_mitchell_breakpoint (xr yr b c : ℝ) :
    ((MitchellFilter2.make xr yr b c).m_a3 * 1 ^ 3 +
       (MitchellFilter2.make xr yr b c).m_a2 * 1 ^ 2 +
       (MitchellFilter2.make xr yr b c).m_a0 =
     (MitchellFilter2.make xr yr b c).m_b3 * 1 ^ 3 +
       (MitchellFilter2.make xr yr b c).m_b2 * 1 ^ 2 +
       (MitchellFilter2.make xr yr b c).m_b1 * 1 +
       (MitchellFilter2.make xr yr b c).m_b0) ∧
    (MitchellFilter2.make xr yr b c).m_a3 * 1 ^ 3 +
      (MitchellFilter2.make xr yr b c).m_a2 * 1 ^ 2 +
      (MitchellFilter2.make xr yr b c).m_a0 = b / 6 := by
  constructor <;> · simp only [MitchellFilter2.make]; ring

/-- Claim C6: the per-axis evaluation path of `MitchellFilter2::evaluate`
(using the eight precomputed coefficients) agrees with the static helper
`mitchell(x, b, c)`: for all radii, `b`, `c`, `x`, `y`, the 2D evaluation
equals the product of the helper applied to the two normalized
coordinates. -/
theorem claim6_evaluate_matches_mitchell_helper (xr yr b c x y : ℝ) :
    (MitchellFilter2.make xr yr b c).evaluate x y =
      MitchellFilter2.mitchell (x * (MitchellFilter2.make xr yr b c).base.m_rcp_xradius) b c *
      MitchellFilter2.mitchell (y * (MitchellFilter2.make xr yr b c).base.m_rcp_yradius) b c := by
  simp only [MitchellFilter2.evaluate, MitchellFilter2.mitchell, MitchellFilter2.make, mkFilter2]
  split_ifs <;> ring

/-- Claim C5: for a `TriangleFilter2` with positive radii,
`evaluate(x, y) = (1 - |x/xradius|) * (1 - |y/yradius|)`; in particular
`evaluate(0, 0) = 1`, `evaluate(xradius, y) = 0` for every `y`, and
`evaluate(x, yradius) = 0` for every `x`. -/
theorem claim5_triangle_formula (xr yr x y : ℝ) (hx : 0 < xr) (hy : 0 < yr) :
    (TriangleFilter2.make xr yr).evaluate x y = (1 - |x / xr|) * (1 - |y / yr|) ∧
    (TriangleFilter2.make xr yr).evaluate 0 0 = 1 ∧
    (TriangleFilter2.make xr yr).evaluate xr y = 0 ∧
    (TriangleFilter2.make xr yr).evaluate x yr = 0 := by
  have hx0 : xr ≠ 0 := ne_of_gt hx
  have hy0 : yr ≠ 0 := ne_of_gt hy
  simp only [TriangleFilter2.evaluate, TriangleFilter2.make, mkFilter2]
  refine ⟨by rw [mul_one_div, mul_one_div], by simp, ?_, ?_⟩
  · rw [mul_one_div, div_self hx0]
    simp
  · rw [mul_one_div yr yr, div_self hy0]
    simp

/-- Witness for C5 at `xradius = 2`, `yradius = 3`, `x = 1`, `y = -1`. -/
theorem claim5_triangle_formula_witness :
    (TriangleFilter2.make 2 3).evaluate 1 (-1) = (1 - |(1 : ℝ) / 2|) * (1 - |(-1 : ℝ) / 3|) ∧
    (TriangleFilter2.make 2 3).evaluate 0 0 = 1 ∧
    (TriangleFilter2.make 2 3).evaluate 2 (-1) = 0 ∧
    (TriangleFilter2.make 2 3).evaluate 1 3 = 0 :=
  claim5_triangle_formula 2 3 1 (-1) (by norm_num) (by norm_num)

/-- Claim C7: for a `LanczosFilter2` with positive radii and `tau > 0`,
`evaluate(0, 0)` returns exactly `1` (the `theta == 0` case of `lanczos`
handles the origin explicitly, so no division by zero occurs there). -/
theorem claim7_lanczos_origin (xr yr tau : ℝ) (_hx : 0 < xr) (_hy : 0 < yr) (_ht : 0 < tau) :
    (LanczosFilter2.make xr yr tau).evaluate 0 0 = 1 := by
  simp [LanczosFilter2.evaluate, LanczosFilter2.make, mkFilter2, LanczosFilter2.lanczos]

/-- Witness for C7 at `xradius = yradius = 1`, `tau = 3`. -/
theorem claim7_lanczos_origin_witness :
    (LanczosFilter2.make 1 1 3).evaluate 0 0 = 1 :=
  claim7_lanczos_origin 1 1 3 (by norm_num) (by norm_num) (by norm_num)

/-- Claim C8: `TriangleFilter2::evaluate` and `LanczosFilter2::evaluate`
are symmetric about each axis: `evaluate(x, y) = evaluate(-x, y) =
evaluate(x, -y)` for all `x`, `y` (positive radii, and for Lanczos
positive `tau`). -/
theorem claim8_axis_symmetry (xr yr tau x y : ℝ) (_hx : 0 < xr) (_hy : 0 < yr) (_ht : 0 < tau) :
    ((TriangleFilter2.make xr yr).evaluate x y = (TriangleFilter2.make xr yr).evaluate (-x) y ∧
     (TriangleFilter2.make xr yr).evaluate x y = (TriangleFilter2.make xr yr).evaluate x (-y)) ∧
    ((LanczosFilter2.make xr yr tau).evaluate x y =
       (LanczosFilter2.make xr yr tau).evaluate (-x) y ∧
     (LanczosFilter2.make xr yr tau).evaluate x y =
       (LanczosFilter2.make xr yr tau).evaluate x (-y)) := by
  refine ⟨⟨?_, ?_⟩, ?_, ?_⟩
  · simp [TriangleFilter2.evaluate, neg_mul, abs_neg]
  · simp [TriangleFilter2.evaluate, neg_mul, abs_neg]
  · simp only [LanczosFilter2.evaluate, LanczosFilter2.make, mkFilter2, neg_mul]
    rw [lanczos_neg]
  · simp only [LanczosFilter2.evaluate, LanczosFilter2.make, mkFilter2, neg_mul]
    rw [lanczos_neg]

/-- Witness for C8 at `xradius = 2`, `yradius = 3`, `tau = 3`,
`(x, y) = (1, 1)`. -/
theorem claim8_axis_symmetry_witness :
    ((TriangleFilter2.make 2 3).evaluate 1 1 = (TriangleFilter2.make 2 3).evaluate (-1) 1 ∧
     (TriangleFilter2.make 2 3).evaluate 1 1 = (TriangleFilter2.make 2 3).evaluate 1 (-1)) ∧
    ((LanczosFilter2.make 2 3 3).evaluate 1 1 = (LanczosFilter2.make 2 3 3).evaluate (-1) 1 ∧
     (LanczosFilter2.make 2 3 3).evaluate 1 1 = (LanczosFilter2.make 2 3 3).evaluate 1 (-1)) :=
  claim8_axis_symmetry 2 3 3 1 1 (by norm_num) (by norm_num) (by norm_num)

/-- Claim C2: `BoxFilter2::evaluate` returns `1` for every `(x, y)`, and for
a `BoxFilter2` with `xradius = yradius = 1`, `compute_normalization_factor`
returns exactly `4` for every `sample_count >= 1`, whatever points the
low-discrepancy sequence produces (in exact arithmetic the estimate equals
the integral `4`). -/
theorem claim2_box_normalization (seq : ℕ → ℕ → ℝ × ℝ) (n : ℕ) (h : 1 ≤ n) (x y : ℝ) :
    (BoxFilter2.make 1 1).evaluate x y = 1 ∧
    compute_normalization_factor ((BoxFilter2.make 1 1).base.get_xradius)
      ((BoxFilter2.make 1 1).base.get_yradius)
      ((BoxFilter2.make 1 1).evaluate) seq n = 4 := by
  constructor
  · rfl
  · have hn : (n : ℝ) ≠ 0 := Nat.cast_ne_zero.mpr (Nat.one_le_iff_ne_zero.mp h)
    simp only [compute_normalization_factor, normalization_loop_sum, BoxFilter2.evaluate,
      BoxFilter2.make, mkFilter2, Filter2.get_xradius, Filter2.get_yradius,
      Finset.sum_const, Finset.card_range, nsmul_eq_mul, mul_one]
    field_simp

/-- Witness for C2: `sample_count = 16` with the constant point sequence at
the origin of the unit square, evaluated at `(x, y) = (1/2, 1/2)`. -/
theorem claim2_box_normalization_witness :
    (BoxFilter2.make 1 1).evaluate (1 / 2) (1 / 2) = 1 ∧
    compute_normalization_factor ((BoxFilter2.make 1 1).base.get_xradius)
      ((BoxFilter2.make 1 1).base.get_yradius)
      ((BoxFilter2.make 1 1).evaluate) (fun _ _ => (0, 0)) 16 = 4 :=
  claim2_box_normalization (fun _ _ => (0, 0)) 16 (by norm_num) (1 / 2) (1 / 2)

/-- Claim C4: for a `GaussianFilter2` with positive radii and `alpha > 0`,
`evaluate` vanishes exactly on the support edge along either axis
(`x = xradius`, any `y`; or `y = yradius`, any `x`) because the per-axis
factor `gaussian(1, alpha) - shift` is zero by construction; the stored
shift equals `exp(-alpha)`; and `evaluate(0, 0) = (1 - shift)^2 > 0`. -/
theorem claim4_gaussian_edge_and_center (xr yr alpha x y : ℝ)
    (hx : 0 < xr) (hy : 0 < yr) (ha : 0 < alpha) :
    (GaussianFilter2.make xr yr alpha).evaluate xr y = 0 ∧
    (GaussianFilter2.make xr yr alpha).evaluate x yr = 0 ∧
    (GaussianFilter2.make xr yr alpha).m_shift = Real.exp (-alpha) ∧
    (GaussianFilter2.make xr yr alpha).evaluate 0 0 = (1 - Real.exp (-alpha)) ^ 2 ∧
    0 < (GaussianFilter2.make xr yr alpha).evaluate 0 0 := by
  have hx0 : xr ≠ 0 := ne_of_gt hx
  have hy0 : yr ≠ 0 := ne_of_gt hy
  have hshift : GaussianFilter2.gaussian 1 alpha = Real.exp (-alpha) := by
    simp [GaussianFilter2.gaussian]
  have hzero : GaussianFilter2.gaussian 0 alpha = 1 := by
    simp [GaussianFilter2.gaussian]
  have hlt : Real.exp (-alpha) < 1 := by
    rw [Real.exp_lt_one_iff]
    linarith
  have hcenter : (GaussianFilter2.make xr yr alpha).evaluate 0 0 =
      (1 - Real.exp (-alpha)) ^ 2 := by
    simp only [GaussianFilter2.evaluate, GaussianFilter2.make, mkFilter2, zero_mul,
      hzero, hshift]
    ring
  refine ⟨?_, ?_, hshift, hcenter, ?_⟩
  · simp only [GaussianFilter2.evaluate, GaussianFilter2.make, mkFilter2,
      mul_one_div, div_self hx0]
    rw [sub_self, zero_mul]
  · simp only [GaussianFilter2.evaluate, GaussianFilter2.make, mkFilter2,
      mul_one_div, div_self hy0]
    rw [sub_self, mul_zero]
  · rw [hcenter]
    have : 0 < 1 - Real.exp (-alpha) := by linarith
    positivity

/-- Witness for C4 at `xradius = 2`, `yradius = 3`, `alpha = 1`,
`(x, y) = (1, 1)`. -/
theorem claim4_gaussian_edge_and_center_witness :
    (GaussianFilter2.make 2 3 1).evaluate 2 1 = 0 ∧
    (GaussianFilter2.make 2 3 1).evaluate 1 3 = 0 ∧
    (GaussianFilter2.make 2 3 1).m_shift = Real.exp (-1) ∧
    (GaussianFilter2.make 2 3 1).evaluate 0 0 = (1 - Real.exp (-1)) ^ 2 ∧
    0 < (GaussianFilter2.make 2 3 1).evaluate 0 0 :=
  claim4_gaussian_edge_and_center 2 3 1 1 1 (by norm_num) (by norm_num) (by norm_num)

/-- Claim C10: the final division by `sample_count` in
`compute_normalization_factor` is unguarded: with `sample_count = 0` the
accumulation loop contributes nothing (the sum over `range 0` is `0`) and
the divisor `(sample_count : ℝ)` is `0`, so the source performs `0.0 / 0.0`
(NaN in IEEE arithmetic); for every `sample_count >= 1` the divisor is
nonzero and the division is well-defined:
`result * sample_count = loop_sum * (4 * xradius * yradius)`. -/
theorem claim10_unguarded_division (xr yr : ℝ) (evaluate : ℝ → ℝ → ℝ)
    (seq : ℕ → ℕ → ℝ × ℝ) (n : ℕ) (h : 1 ≤ n) :
    normalization_loop_sum xr yr evaluate seq 0 = 0 ∧
    ((0 : ℕ) : ℝ) = 0 ∧
    ((n : ℕ) : ℝ) ≠ 0 ∧
    compute_normalization_factor xr yr evaluate seq n * (n : ℝ) =
      normalization_loop_sum xr yr evaluate seq n * (4 * xr * yr) := by
  have hn : (n : ℝ) ≠ 0 := Nat.cast_ne_zero.mpr (Nat.one_le_iff_ne_zero.mp h)
  refine ⟨?_, by norm_num, hn, ?_⟩
  · simp [normalization_loop_sum]
  · rw [compute_normalization_factor, div_mul_cancel₀ _ hn]

/-- Witness for C10 with the zero kernel, the constant point sequence and
`sample_count = 1024` (the source's default). -/
theorem claim10_unguarded_division_witness :
    normalization_loop_sum 1 1 (fun _ _ => 0) (fun _ _ => (0, 0)) 0 = 0 ∧
    ((0 : ℕ) : ℝ) = 0 ∧
    ((1024 : ℕ) : ℝ) ≠ 0 ∧
    compute_normalization_factor 1 1 (fun _ _ => 0) (fun _ _ => (0, 0)) 1024 * ((1024 : ℕ) : ℝ) =
      normalization_loop_sum 1 1 (fun _ _ => 0) (fun _ _ => (0, 0)) 1024 * (4 * 1 * 1) :=
  claim10_unguarded_division 1 1 (fun _ _ => 0) (fun _ _ => (0, 0)) 1024 (by norm_num)

/-- Claim C1 divergence: the member `m_rcp_tau` of `LanczosFilter2` stores
`tau` itself, not `1/tau`, contradicting its name and the documented
design.  Consequence at `xradius = yradius = 1`, `tau = 2`: the code's
`evaluate(1/2, 0)` collapses to `sinc(pi) * sinc(pi/2) * 1 = 0`, whereas
the documented per-axis value `sinc(pi*n/tau) * sinc(pi*n)` at `n = 1/2`
is `sinc(pi/4) * sinc(pi/2)`, which is nonzero. -/
theorem claim1_lanczos_rcp_tau_divergence :
    (LanczosFilter2.make 1 1 2).m_rcp_tau = 2 ∧
    (LanczosFilter2.make 1 1 2).m_rcp_tau ≠ 1 / 2 ∧
    (LanczosFilter2.make 1 1 2).evaluate (1 / 2) 0 = 0 ∧
    LanczosFilter2.sinc (Real.pi * (1 / 2) / 2) * LanczosFilter2.sinc (Real.pi * (1 / 2)) ≠ 0 := by
  refine ⟨rfl, ?_, ?_, ?_⟩
  · rw [show (LanczosFilter2.make 1 1 2).m_rcp_tau = 2 from rfl]
    norm_num
  · have hpi2 : Real.pi * (1 / 2 * (1 / 1)) ≠ 0 := by
      have := Real.pi_pos
      norm_num
      linarith
    simp only [LanczosFilter2.evaluate, LanczosFilter2.make, mkFilter2, LanczosFilter2.lanczos,
      mul_zero, zero_mul, if_pos rfl, if_neg hpi2, mul_one]
    have harg : Real.pi * (1 / 2 * (1 / 1)) * 2 = Real.pi := by ring
    rw [harg]
    simp [LanczosFilter2.sinc, Real.sin_pi]
  · have hA : 0 < LanczosFilter2.sinc (Real.pi * (1 / 2) / 2) := by
      rw [show Real.pi * (1 / 2) / 2 = Real.pi / 4 by ring]
      rw [LanczosFilter2.sinc, Real.sin_pi_div_four]
      positivity
    have hB : 0 < LanczosFilter2.sinc (Real.pi * (1 / 2)) := by
      rw [show Real.pi * (1 / 2) = Real.pi / 2 by ring]
      rw [LanczosFilter2.sinc, Real.sin_pi_div_two]
      positivity
    exact ne_of_gt (mul_pos hA hB)

end Appleseed
